import Mathlib

/-!
Shallow embedding of the Razorpay payment-webhook handlers of this
repository:

* `handler` embeds the main handler in `api/payment-webhook.ts`;
* `handlerVariant` embeds the second handler variant of the repository
  (the file whose original name is unknown).

Modelling conventions:

* JavaScript values that may be `undefined`/`null` are `Option`s.
  JS string truthiness (`!x` is true for `undefined`, `null` and `""`)
  is `jsTruthy`; number truthiness (`!x` is true for `undefined` and `0`)
  is `numTruthy`.  A `payment.amount` that is absent or not a number is
  modelled as `none` (the `typeof` check of the main handler only cares
  whether it is a number).
* The Supabase client is modelled as a function from the record to be
  inserted to an `InsertResult` (the `{ data, error }` object returned by
  `insert(...).select()`).  Each handler returns, next to its response,
  the list of records it passed to the store, so "no store write occurs"
  is "that list is `[]`".
* JS exceptions (property access on `undefined`) are caught by the
  handlers' top-level `try`/`catch` and turned into the 500
  "Internal server error" response; the embedding returns that response
  directly at the places where the source would throw.
* `Math.round(a / 100)` for an integer `a` is `⌊(a + 50) / 100⌋`
  (JS `Math.round` is floor of the argument plus one half).
* Response JSON bodies are a sum type with one constructor per body shape
  occurring in the source; timestamps (`new Date().toISOString()`) are
  not modelled, no claim mentions them.
-/

namespace PaymentWebhook

/-- JS truthiness of a possibly-absent string: `undefined`, `null` and
`""` are falsy. -/
def jsTruthy : Option String → Bool
  | none => false
  | some s => s ≠ ""

/-- JS truthiness of a possibly-absent number: `undefined` and `0` are
falsy. -/
def numTruthy : Option Int → Bool
  | none => false
  | some n => n ≠ 0

/-- String interpolation of a possibly-absent value (template literal
`${x}` prints `undefined` for an absent value). -/
def jsShow : Option String → String
  | none => "undefined"
  | some s => s

/-- JS `s.toLowerCase()` (character-wise lowercasing; over the ASCII
emails at issue it agrees with the JS builtin). -/
def jsToLowerCase (s : String) : String :=
  String.mk (s.toList.map Char.toLower)

/-- JS `s.trim()`: strip leading and trailing whitespace. -/
def jsTrim (s : String) : String :=
  String.mk
    (((s.toList.dropWhile Char.isWhitespace).reverse.dropWhile
        Char.isWhitespace).reverse)

/-- Is `pat` a leading segment of `l`? (helper for `strIncludes`). -/
def leadsWith : List Char → List Char → Bool
  | [], _ => true
  | _ :: _, [] => false
  | a :: as, b :: bs => a = b && leadsWith as bs

/-- Does `pat` occur inside `l`? (helper for `strIncludes`). -/
def occursIn (pat : List Char) : List Char → Bool
  | [] => pat.isEmpty
  | c :: cs => leadsWith pat (c :: cs) || occursIn pat cs

/-- JS `s.includes(pat)`: substring containment. -/
def strIncludes (s pat : String) : Bool :=
  occursIn pat.toList s.toList

/-- The `notes` metadata map of a Razorpay payment (only the key the
handlers read). -/
structure Notes where
  event_id : Option String
  deriving DecidableEq, Repr

/-- The nested `payment` object of the webhook payload; every field may be
absent in an inbound request. -/
structure Payment where
  id : Option String
  email : Option String
  amount : Option Int
  notes : Option Notes
  deriving DecidableEq, Repr

/-- The parsed JSON body (`RazorpayWebhookPayload`). -/
structure Payload where
  event : Option String
  payment : Option Payment
  deriving DecidableEq, Repr

/-- An inbound HTTP request: method plus parsed body (`none` = no/unparseable
body, i.e. `req.body` is `undefined`). -/
structure Request where
  method : String
  body : Option Payload
  deriving DecidableEq, Repr

/-- Process-wide configuration: the two Supabase environment variables. -/
structure Env where
  SUPABASE_URL : Option String
  SUPABASE_SERVICE_ROLE_KEY : Option String
  deriving DecidableEq, Repr

/-- The record the main handler inserts (`RegistrationRecord` of the
source; `amount` is in rupees, an integer because `Math.round` returns
an integer). -/
structure RegistrationRecord where
  event_id : String
  user_email : String
  amount : Int
  payment_id : String
  status : String
  deriving DecidableEq, Repr

/-- The record the variant handler inserts: its `amount` is plain JS
division `payment.amount / 100`, which can be fractional, hence `Rat`. -/
structure VariantRecord where
  event_id : String
  user_email : String
  amount : Rat
  payment_id : String
  status : String
  deriving DecidableEq, Repr

/-- A Supabase error object (the fields the handlers read). -/
structure StoreError where
  code : String
  message : String
  deriving DecidableEq, Repr

/-- A row returned by `insert(...).select()` (the fields the handlers
read). -/
structure StoredRow where
  id : String
  event_id : String
  user_email : String
  deriving DecidableEq, Repr

/-- The `{ data, error }` outcome of the insert call: either an error
object, or the (possibly empty) list of returned rows. -/
inductive InsertResult where
  | failure (error : StoreError)
  | success (rows : List StoredRow)
  deriving DecidableEq, Repr

/-- The `received_data` diagnostic snapshot of the main handler's 400
response (`hasAmount` is a `typeof` result string in the source). -/
structure ReceivedData where
  hasPayment : Bool
  hasId : Bool
  hasEmail : Bool
  hasAmount : String
  hasNotes : Bool
  hasEventId : Bool
  deriving DecidableEq, Repr

/-- The JSON response bodies produced across both handlers, one
constructor per shape. -/
inductive Body where
  | methodErr (error : String) (allowed_methods : List String)
  | errorOnly (error : String)
  | configError (error : String)
  | ignored (message : String)
  | validationError (error : String) (missing_fields : List String)
      (received_data : ReceivedData)
  | duplicateOk (message : String) (payment_id : String) (duplicate : Bool)
  | insertError (error : String) (details : String) (code : String)
  | insertErrorNoCode (error : String) (details : String)
  | emptyInsert (error : String)
  | internalError (error : String) (details : String)
  | successFull (message : String) (registration_id : String)
      (event_id : String) (amount_rupees : Int)
  | successShort (message : String) (registration_id : String)
  deriving DecidableEq, Repr

/-- An HTTP response: `res.status(200).end()` (empty body) or
`res.status(n).json(body)`. -/
inductive Response where
  | status200End
  | json (status : Nat) (body : Body)
  deriving DecidableEq, Repr

/-- Optional chain `payment?.id`. -/
def pid? (p : Option Payment) : Option String := p.bind Payment.id

/-- Optional chain `payment?.email`. -/
def pemail? (p : Option Payment) : Option String := p.bind Payment.email

/-- Optional chain `payment?.amount` (`some` iff it is a number). -/
def pamount? (p : Option Payment) : Option Int := p.bind Payment.amount

/-- Optional chain `payment?.notes?.event_id`. -/
def pnotesEventId? (p : Option Payment) : Option String :=
  (p.bind Payment.notes).bind Notes.event_id

/-- The `missingFields` array built by the main handler: all four checks
run, each failing one appends its field name (source order). -/
def missingFieldsOf (p : Option Payment) : List String :=
  (if jsTruthy (pid? p) then [] else ["payment.id"]) ++
  (if jsTruthy (pemail? p) then [] else ["payment.email"]) ++
  (if (pamount? p).isSome then [] else ["payment.amount"]) ++
  (if jsTruthy (pnotesEventId? p) then [] else ["payment.notes.event_id"])

/-- The `received_data` snapshot of the main handler's 400 response. -/
def receivedDataOf (p : Option Payment) : ReceivedData where
  hasPayment := p.isSome
  hasId := jsTruthy (pid? p)
  hasEmail := jsTruthy (pemail? p)
  hasAmount := if (pamount? p).isSome then "number" else "undefined"
  hasNotes := (p.bind Payment.notes).isSome
  hasEventId := jsTruthy (pnotesEventId? p)

/-- `Math.round(paise / 100)`: for an integer number of paise this is
`⌊paise / 100 + 1/2⌋ = ⌊(paise + 50) / 100⌋`. -/
def amountInRupees (paise : Int) : Int := Int.fdiv (paise + 50) 100

/-- The `registrationData` record the main handler builds after
validation succeeded (the `getD` defaults are never used on a validated
payment). -/
def registrationDataOf (p : Payment) : RegistrationRecord where
  event_id := (pnotesEventId? (some p)).getD ""
  user_email := jsTrim (jsToLowerCase (p.email.getD ""))
  amount := amountInRupees (p.amount.getD 0)
  payment_id := p.id.getD ""
  status := "success"

/-- The main handler (`api/payment-webhook.ts`).  Returns the response
together with the list of records passed to the store. -/
def handler (env : Env) (store : RegistrationRecord → InsertResult)
    (req : Request) : Response × List RegistrationRecord :=
  if req.method = "OPTIONS" then
    (Response.status200End, [])
  else if req.method ≠ "POST" then
    (Response.json 405 (Body.methodErr
      "Method not allowed. Only POST requests are accepted." ["POST"]), [])
  else if ¬ (jsTruthy env.SUPABASE_URL ∧ jsTruthy env.SUPABASE_SERVICE_ROLE_KEY) then
    (Response.json 500 (Body.configError
      "Server configuration error: Missing Supabase credentials"), [])
  else
    match req.body with
    | none =>
      -- `payload.event` on an undefined body throws; caught by the catch-all
      (Response.json 500 (Body.internalError
        "Internal server error while processing webhook"
        "Cannot read properties of undefined (reading 'event')"), [])
    | some payload =>
      if payload.event ≠ some "payment.captured" then
        (Response.json 200 (Body.ignored
          ("Event ignored. Only payment.captured events are processed. Received: "
            ++ jsShow payload.event)), [])
      else
        let payment := payload.payment
        let missingFields := missingFieldsOf payment
        if missingFields ≠ [] then
          (Response.json 400 (Body.validationError
            "Missing required payment data" missingFields
            (receivedDataOf payment)), [])
        else
          match payment with
          | none =>
            -- unreachable: an absent payment makes all four fields missing
            (Response.json 500 (Body.internalError
              "Internal server error while processing webhook" "unreachable"), [])
          | some p =>
            let registrationData := registrationDataOf p
            match store registrationData with
            | InsertResult.failure error =>
              if error.code = "23505" ∧ strIncludes error.message "payment_id" then
                (Response.json 200 (Body.duplicateOk
                  "Payment already processed" (p.id.getD "") true),
                 [registrationData])
              else
                (Response.json 500 (Body.insertError
                  "Failed to save registration data" error.message error.code),
                 [registrationData])
            | InsertResult.success rows =>
              match rows with
              | [] =>
                (Response.json 500 (Body.emptyInsert
                  "Registration may not have been saved properly"),
                 [registrationData])
              | row :: _ =>
                (Response.json 200 (Body.successFull
                  "Payment processed and registration saved successfully"
                  row.id row.event_id registrationData.amount),
                 [registrationData])

/-- The variant handler (second copy of the webhook in the repository):
no OPTIONS branch, no explicit configuration check (`createClient` throws
on a missing credential, caught by the catch-all), truthiness validation
(so `amount 0` fails it), a single fixed 400 message, plain division for
the amount, no duplicate-key branch and an unguarded `data[0].id`. -/
def handlerVariant (env : Env) (store : VariantRecord → InsertResult)
    (req : Request) : Response × List VariantRecord :=
  if req.method ≠ "POST" then
    (Response.json 405 (Body.errorOnly
      "Method not allowed. Only POST requests are accepted."), [])
  else if ¬ jsTruthy env.SUPABASE_URL then
    (Response.json 500 (Body.internalError
      "Internal server error while processing webhook"
      "supabaseUrl is required."), [])
  else if ¬ jsTruthy env.SUPABASE_SERVICE_ROLE_KEY then
    (Response.json 500 (Body.internalError
      "Internal server error while processing webhook"
      "supabaseKey is required."), [])
  else
    match req.body with
    | none =>
      (Response.json 500 (Body.internalError
        "Internal server error while processing webhook"
        "Cannot read properties of undefined (reading 'event')"), [])
    | some payload =>
      if payload.event ≠ some "payment.captured" then
        (Response.json 200 (Body.ignored
          "Event ignored. Only payment.captured events are processed."), [])
      else
        match payload.payment with
        | none =>
          -- `payment.id` on an undefined payment throws (no optional chaining)
          (Response.json 500 (Body.internalError
            "Internal server error while processing webhook"
            "Cannot read properties of undefined (reading 'id')"), [])
        | some payment =>
          if ¬ (jsTruthy payment.id ∧ jsTruthy payment.email ∧
                numTruthy payment.amount ∧
                jsTruthy (payment.notes.bind Notes.event_id)) then
            (Response.json 400 (Body.errorOnly
              "Missing required payment data: id, email, amount, or notes.event_id"), [])
          else
            let registrationData : VariantRecord :=
              { event_id := (payment.notes.bind Notes.event_id).getD ""
                user_email := payment.email.getD ""
                amount := ((payment.amount.getD 0 : Int) : Rat) / 100
                payment_id := payment.id.getD ""
                status := "success" }
            match store registrationData with
            | InsertResult.failure error =>
              (Response.json 500 (Body.insertErrorNoCode
                "Failed to save registration data" error.message),
               [registrationData])
            | InsertResult.success rows =>
              match rows with
              | [] =>
                -- `data[0].id` on an empty array throws
                (Response.json 500 (Body.internalError
                  "Internal server error while processing webhook"
                  "Cannot read properties of undefined (reading 'id')"),
                 [registrationData])
              | row :: _ =>
                (Response.json 200 (Body.successShort
                  "Payment processed and registration saved successfully" row.id),
                 [registrationData])

/-- The four required-field conditions of the main handler all holding
("a valid `payment.captured` notification"). -/
def validFields (p : Option Payment) : Prop :=
  jsTruthy (pid? p) = true ∧ jsTruthy (pemail? p) = true ∧
  (pamount? p).isSome = true ∧ jsTruthy (pnotesEventId? p) = true

instance (p : Option Payment) : Decidable (validFields p) := by
  unfold validFields; infer_instance

/-- A POST request carrying a `payment.captured` payload with the given
payment object. -/
def capturedReq (payment : Option Payment) : Request where
  method := "POST"
  body := some { event := some "payment.captured", payment := payment }

/-! ### Concrete fixtures used by witnesses and counterexamples -/

/-- A fully configured environment. -/
def env0 : Env where
  SUPABASE_URL := some "https://example.supabase.co"
  SUPABASE_SERVICE_ROLE_KEY := some "service-role-key"

/-- An environment with both credentials absent. -/
def envMissing : Env where
  SUPABASE_URL := none
  SUPABASE_SERVICE_ROLE_KEY := none

/-- A row as returned by a successful insert. -/
def row0 : StoredRow where
  id := "reg_1"
  event_id := "event_a"
  user_email := "user@example.com"

/-- A store whose insert always succeeds and returns one row. -/
def store0 : RegistrationRecord → InsertResult :=
  fun _ => InsertResult.success [row0]

/-- A variant-record store whose insert always succeeds. -/
def storeV0 : VariantRecord → InsertResult :=
  fun _ => InsertResult.success [row0]

/-- A Postgres uniqueness-violation error on the `payment_id` column. -/
def dupError : StoreError where
  code := "23505"
  message := "duplicate key value violates unique constraint \x22eventsregistrations_payment_id_key\x22"

/-- A store that always reports a uniqueness violation on `payment_id`. -/
def storeDup : RegistrationRecord → InsertResult :=
  fun _ => InsertResult.failure dupError

/-- A store that reports success but returns no rows. -/
def storeEmpty : RegistrationRecord → InsertResult :=
  fun _ => InsertResult.success []

/-- A complete, valid payment object. -/
def p0 : Payment where
  id := some "pay_123"
  email := some "  User@Example.COM "
  amount := some 12345
  notes := some { event_id := some "event_a" }

/-- A payment object missing its email and its (numeric) amount. -/
def pMissing : Payment where
  id := some "pay_123"
  email := none
  amount := none
  notes := some { event_id := some "event_a" }

/-- A complete payment object whose amount is exactly 0. -/
def pZero : Payment where
  id := some "pay_0"
  email := some "zero@example.com"
  amount := some 0
  notes := some { event_id := some "event_a" }

/-! ### Helper lemmas -/

/-- An absent string is JS-falsy. -/
theorem jsTruthy_none : jsTruthy none = false := rfl

/-- A payment with all four required fields present produces an empty
`missingFields` array. -/
theorem missingFields_eq_nil (p : Option Payment) (h : validFields p) :
    missingFieldsOf p = [] := by
  obtain ⟨h1, h2, h3, h4⟩ := h
  simp [missingFieldsOf, h1, h2, h3, h4]

/-- A payment failing at least one required-field check produces a
nonempty `missingFields` array. -/
theorem missingFields_ne_nil (p : Option Payment) (h : ¬ validFields p) :
    missingFieldsOf p ≠ [] := by
  unfold validFields at h
  cases h1 : jsTruthy (pid? p) <;> cases h2 : jsTruthy (pemail? p) <;>
    cases h3 : (pamount? p).isSome <;> cases h4 : jsTruthy (pnotesEventId? p) <;>
    simp_all [missingFieldsOf]

/-- On a configured environment and a fully valid `payment.captured`
request, the main handler reduces to the dispatch on the store's answer
for `registrationDataOf p`. -/
theorem handler_valid_store_case (env : Env)
    (store : RegistrationRecord → InsertResult) (p : Payment)
    (hu : jsTruthy env.SUPABASE_URL = true)
    (hk : jsTruthy env.SUPABASE_SERVICE_ROLE_KEY = true)
    (hv : validFields (some p)) :
    handler env store (capturedReq (some p)) =
      match store (registrationDataOf p) with
      | InsertResult.failure error =>
        if error.code = "23505" ∧ strIncludes error.message "payment_id" then
          (Response.json 200 (Body.duplicateOk
            "Payment already processed" (p.id.getD "") true),
           [registrationDataOf p])
        else
          (Response.json 500 (Body.insertError
            "Failed to save registration data" error.message error.code),
           [registrationDataOf p])
      | InsertResult.success [] =>
        (Response.json 500 (Body.emptyInsert
          "Registration may not have been saved properly"),
         [registrationDataOf p])
      | InsertResult.success (row :: _) =>
        (Response.json 200 (Body.successFull
          "Payment processed and registration saved successfully"
          row.id row.event_id (registrationDataOf p).amount),
         [registrationDataOf p]) := by
  have hnil : missingFieldsOf (some p) = [] := missingFields_eq_nil _ hv
  simp [handler, capturedReq, hu, hk, hnil]
  cases store (registrationDataOf p) with
  | failure error => rfl
  | success rows => cases rows <;> rfl

/-- Whatever the store answers, a valid request leads to exactly one
attempted write, of `registrationDataOf p`. -/
theorem handler_valid_snd (env : Env)
    (store : RegistrationRecord → InsertResult) (p : Payment)
    (hu : jsTruthy env.SUPABASE_URL = true)
    (hk : jsTruthy env.SUPABASE_SERVICE_ROLE_KEY = true)
    (hv : validFields (some p)) :
    (handler env store (capturedReq (some p))).snd = [registrationDataOf p] := by
  rw [handler_valid_store_case env store p hu hk hv]
  cases store (registrationDataOf p) with
  | failure error =>
    by_cases hc : error.code = "23505" ∧ strIncludes error.message "payment_id" = true <;>
      simp [hc]
  | success rows => cases rows <;> rfl

/-- Whatever the store answers, a valid request is never answered 400. -/
theorem handler_valid_fst_ne_400 (env : Env)
    (store : RegistrationRecord → InsertResult) (p : Payment)
    (hu : jsTruthy env.SUPABASE_URL = true)
    (hk : jsTruthy env.SUPABASE_SERVICE_ROLE_KEY = true)
    (hv : validFields (some p)) :
    ∀ b : Body, (handler env store (capturedReq (some p))).fst ≠ Response.json 400 b := by
  intro b
  rw [handler_valid_store_case env store p hu hk hv]
  cases store (registrationDataOf p) with
  | failure error =>
    by_cases hc : error.code = "23505" ∧ strIncludes error.message "payment_id" = true <;>
      simp [hc]
  | success rows => cases rows <;> simp

/-- A JS-truthy optional string is present. -/
theorem jsTruthy_isSome {o : Option String} (h : jsTruthy o = true) :
    ∃ s, o = some s := by
  cases o with
  | none => simp [jsTruthy] at h
  | some s => exact ⟨s, rfl⟩

/-- `Math.round (a / 100)` as embedded: rewriting floor division. -/
theorem amountInRupees_eq_ediv (a : Int) :
    amountInRupees a = (a + 50) / 100 := by
  unfold amountInRupees
  exact Int.fdiv_eq_ediv _ (by norm_num)

/-- The rounded amount is a nearest integer to `a / 100`. -/
theorem amountInRupees_nearest (a : Int) :
    ∀ z : Int, (100 * amountInRupees a - a).natAbs ≤ (100 * z - a).natAbs := by
  intro z
  rw [amountInRupees_eq_ediv]
  omega

/-! ### Claims -/

/-- C6: for every request whose method is not POST, an OPTIONS request is
answered 200 with an empty body, any other non-POST method is answered
405 with an `allowed_methods` hint, and in both cases no store write
occurs. -/
theorem claim_C6_non_post_methods (env : Env)
    (store : RegistrationRecord → InsertResult) (req : Request)
    (hnp : req.method ≠ "POST") :
    (req.method = "OPTIONS" →
      handler env store req = (Response.status200End, []))
    ∧ (req.method ≠ "OPTIONS" →
      handler env store req = (Response.json 405 (Body.methodErr
        "Method not allowed. Only POST requests are accepted." ["POST"]), [])) := by
  constructor
  · intro hop
    simp [handler, hop]
  · intro hnop
    simp [handler, hnop, hnp]

/-- Witness for C6 at a concrete OPTIONS request and a concrete GET
request. -/
theorem claim_C6_non_post_methods_witness :
    handler env0 store0 { method := "OPTIONS", body := none }
        = (Response.status200End, [])
    ∧ handler env0 store0 { method := "GET", body := none }
        = (Response.json 405 (Body.methodErr
            "Method not allowed. Only POST requests are accepted." ["POST"]), []) :=
  ⟨(claim_C6_non_post_methods env0 store0
      { method := "OPTIONS", body := none } (by decide)).1 rfl,
   (claim_C6_non_post_methods env0 store0
      { method := "GET", body := none } (by decide)).2 (by decide)⟩

/-- C5 (as stated) is false: a non-POST request with both credentials
absent is not answered 500 "server configuration error" — an OPTIONS
request is answered 200 with an empty body. -/
theorem claim_C5_counterexample :
    handler envMissing store0 { method := "OPTIONS", body := none }
        = (Response.status200End, [])
    ∧ (handler envMissing store0 { method := "OPTIONS", body := none }).fst
        ≠ Response.json 500 (Body.configError
            "Server configuration error: Missing Supabase credentials") := by
  decide

/-- C5 (amended to POST requests): for every POST request, if either
store credential is absent, the handler responds 500 with a "server
configuration error" body and the store is invoked zero times. -/
theorem claim_C5_config_gate_on_post (env : Env)
    (store : RegistrationRecord → InsertResult) (req : Request)
    (hpost : req.method = "POST")
    (hmiss : jsTruthy env.SUPABASE_URL = false ∨
      jsTruthy env.SUPABASE_SERVICE_ROLE_KEY = false) :
    handler env store req = (Response.json 500 (Body.configError
      "Server configuration error: Missing Supabase credentials"), []) := by
  have hop : req.method ≠ "OPTIONS" := by rw [hpost]; decide
  rcases hmiss with h | h <;> simp [handler, hpost, hop, h]

/-- Witness for the amended C5 at a concrete POST request with both
credentials absent. -/
theorem claim_C5_config_gate_on_post_witness :
    handler envMissing store0
        { method := "POST",
          body := some { event := some "payment.captured", payment := some p0 } }
      = (Response.json 500 (Body.configError
          "Server configuration error: Missing Supabase credentials"), []) :=
  claim_C5_config_gate_on_post envMissing store0
    { method := "POST",
      body := some { event := some "payment.captured", payment := some p0 } }
    rfl (Or.inl (by decide))

/-- C4 (as stated) is false: a POST request with event
`"payment.failed"` but with the store credentials absent is answered 500
(configuration error), not 200 "ignored". -/
theorem claim_C4_counterexample :
    handler envMissing store0
        { method := "POST",
          body := some { event := some "payment.failed", payment := none } }
      = (Response.json 500 (Body.configError
          "Server configuration error: Missing Supabase credentials"), [])
    ∧ (handler envMissing store0
        { method := "POST",
          body := some { event := some "payment.failed", payment := none } }).fst
      ≠ Response.json 200 (Body.ignored
          "Event ignored. Only payment.captured events are processed. Received: payment.failed") := by
  decide

/-- C4 (amended with configured credentials): for every POST request with
both store credentials present whose event is any string other than
`"payment.captured"`, the handler responds 200 with an "ignored" message
echoing the received event name, and no store write occurs. -/
theorem claim_C4_ignored_event_when_configured (env : Env)
    (store : RegistrationRecord → InsertResult) (payment : Option Payment)
    (e : String)
    (hu : jsTruthy env.SUPABASE_URL = true)
    (hk : jsTruthy env.SUPABASE_SERVICE_ROLE_KEY = true)
    (he : e ≠ "payment.captured") :
    handler env store
        { method := "POST", body := some { event := some e, payment := payment } }
      = (Response.json 200 (Body.ignored
          ("Event ignored. Only payment.captured events are processed. Received: "
            ++ e)), []) := by
  simp [handler, hu, hk, he, jsShow]

/-- Witness for the amended C4 at a concrete `payment.failed` request on
a configured environment. -/
theorem claim_C4_ignored_event_when_configured_witness :
    handler env0 store0
        { method := "POST",
          body := some { event := some "payment.failed", payment := some p0 } }
      = (Response.json 200 (Body.ignored
          ("Event ignored. Only payment.captured events are processed. Received: "
            ++ "payment.failed")), []) :=
  claim_C4_ignored_event_when_configured env0 store0 (some p0)
    "payment.failed" (by decide) (by decide) (by decide)

/-- C9: a POST `payment.captured` request whose body lacks the payment
object entirely does not reach the catch-all (no exception is thrown by
the optional-chained validation): the handler answers 400 with all four
required field names in `missing_fields`, and no store write occurs. -/
theorem claim_C9_missing_payment_safe (env : Env)
    (store : RegistrationRecord → InsertResult)
    (hu : jsTruthy env.SUPABASE_URL = true)
    (hk : jsTruthy env.SUPABASE_SERVICE_ROLE_KEY = true) :
    handler env store (capturedReq none)
      = (Response.json 400 (Body.validationError
          "Missing required payment data"
          ["payment.id", "payment.email", "payment.amount", "payment.notes.event_id"]
          { hasPayment := false, hasId := false, hasEmail := false,
            hasAmount := "undefined", hasNotes := false, hasEventId := false }), []) := by
  simp [handler, capturedReq, hu, hk, missingFieldsOf, receivedDataOf,
    pid?, pemail?, pamount?, pnotesEventId?, jsTruthy_none]

/-- Witness for C9 on the concrete configured environment. -/
theorem claim_C9_missing_payment_safe_witness :
    handler env0 store0 (capturedReq none)
      = (Response.json 400 (Body.validationError
          "Missing required payment data"
          ["payment.id", "payment.email", "payment.amount", "payment.notes.event_id"]
          { hasPayment := false, hasId := false, hasEmail := false,
            hasAmount := "undefined", hasNotes := false, hasEventId := false }), []) :=
  claim_C9_missing_payment_safe env0 store0 (by decide) (by decide)

/-- C1: for every request passing the method gate, event-type filter and
field validation, if the insert fails with error code `23505` whose
message mentions `payment_id`, the handler responds 200 with
`duplicate: true` and the echoed `payment_id` — not an error status. -/
theorem claim_C1_duplicate_is_200 (env : Env)
    (store : RegistrationRecord → InsertResult) (p : Payment)
    (e : StoreError) (pid : String)
    (hu : jsTruthy env.SUPABASE_URL = true)
    (hk : jsTruthy env.SUPABASE_SERVICE_ROLE_KEY = true)
    (hv : validFields (some p)) (hid : p.id = some pid)
    (hstore : store (registrationDataOf p) = InsertResult.failure e)
    (hcode : e.code = "23505")
    (hmsg : strIncludes e.message "payment_id" = true) :
    handler env store (capturedReq (some p))
      = (Response.json 200 (Body.duplicateOk
          "Payment already processed" pid true), [registrationDataOf p]) := by
  rw [handler_valid_store_case env store p hu hk hv, hstore]
  simp [hcode, hmsg, hid]

/-- Witness for C1 at the concrete valid payment and a store reporting a
`payment_id` uniqueness violation. -/
theorem claim_C1_duplicate_is_200_witness :
    handler env0 storeDup (capturedReq (some p0))
      = (Response.json 200 (Body.duplicateOk
          "Payment already processed" "pay_123" true), [registrationDataOf p0]) :=
  claim_C1_duplicate_is_200 env0 storeDup p0 dupError "pay_123"
    (by decide) (by decide) (by decide) rfl rfl rfl (by decide)

/-- C2: for every valid `payment.captured` notification with minor-unit
integer amount `a`, the record handed to the store carries amount
`Math.round (a / 100)`, which is a nearest integer to `a / 100` (so the
conversion rounds rather than truncates). -/
theorem claim_C2_amount_rounds_nearest (env : Env)
    (store : RegistrationRecord → InsertResult) (p : Payment) (a : Int)
    (hu : jsTruthy env.SUPABASE_URL = true)
    (hk : jsTruthy env.SUPABASE_SERVICE_ROLE_KEY = true)
    (hv : validFields (some p)) (ha : p.amount = some a) :
    ∃ r : RegistrationRecord,
      (handler env store (capturedReq (some p))).snd = [r]
      ∧ r.amount = amountInRupees a
      ∧ ∀ z : Int, (100 * r.amount - a).natAbs ≤ (100 * z - a).natAbs := by
  have hr : (registrationDataOf p).amount = amountInRupees a := by
    simp [registrationDataOf, ha]
  refine ⟨registrationDataOf p, handler_valid_snd env store p hu hk hv, hr, ?_⟩
  rw [hr]
  exact amountInRupees_nearest a

/-- Witness for C2 at amount 12345 (→ 123), with the half-up tie 150 → 2
showing the conversion does not truncate. -/
theorem claim_C2_amount_rounds_nearest_witness :
    (∃ r : RegistrationRecord,
      (handler env0 store0 (capturedReq (some p0))).snd = [r]
      ∧ r.amount = amountInRupees 12345
      ∧ ∀ z : Int, (100 * r.amount - 12345).natAbs ≤ (100 * z - 12345).natAbs)
    ∧ amountInRupees 12345 = 123 ∧ amountInRupees 150 = 2
    ∧ amountInRupees 10000 = 100 :=
  ⟨claim_C2_amount_rounds_nearest env0 store0 p0 12345
      (by decide) (by decide) (by decide) rfl,
   by decide, by decide, by decide⟩

/-- C3: for every `payment.captured` notification failing at least one
required-field check, the response is 400 carrying the `missing_fields`
array and the `received_data` snapshot, no store write occurs, and each
of the four field names is in `missing_fields` exactly when its check
fails — so validation never stops at the first failure. -/
theorem claim_C3_missing_fields_exhaustive (env : Env)
    (store : RegistrationRecord → InsertResult) (payment : Option Payment)
    (hu : jsTruthy env.SUPABASE_URL = true)
    (hk : jsTruthy env.SUPABASE_SERVICE_ROLE_KEY = true)
    (hmiss : ¬ validFields payment) :
    handler env store (capturedReq payment)
      = (Response.json 400 (Body.validationError
          "Missing required payment data"
          (missingFieldsOf payment) (receivedDataOf payment)), [])
    ∧ ("payment.id" ∈ missingFieldsOf payment ↔ jsTruthy (pid? payment) = false)
    ∧ ("payment.email" ∈ missingFieldsOf payment ↔ jsTruthy (pemail? payment) = false)
    ∧ ("payment.amount" ∈ missingFieldsOf payment ↔ (pamount? payment).isSome = false)
    ∧ ("payment.notes.event_id" ∈ missingFieldsOf payment ↔
        jsTruthy (pnotesEventId? payment) = false) := by
  have hne : missingFieldsOf payment ≠ [] := missingFields_ne_nil payment hmiss
  refine ⟨by simp [handler, capturedReq, hu, hk, hne], ?_, ?_, ?_, ?_⟩
  all_goals
    cases h1 : jsTruthy (pid? payment) <;>
      cases h2 : jsTruthy (pemail? payment) <;>
      cases h3 : (pamount? payment).isSome <;>
      cases h4 : jsTruthy (pnotesEventId? payment) <;>
      simp [missingFieldsOf, h1, h2, h3, h4]

/-- Witness for C3 at a payment missing email and amount: the 400
response lists exactly those two fields. -/
theorem claim_C3_missing_fields_exhaustive_witness :
    (handler env0 store0 (capturedReq (some pMissing))
      = (Response.json 400 (Body.validationError
          "Missing required payment data"
          (missingFieldsOf (some pMissing)) (receivedDataOf (some pMissing))), [])
    ∧ ("payment.id" ∈ missingFieldsOf (some pMissing) ↔
        jsTruthy (pid? (some pMissing)) = false)
    ∧ ("payment.email" ∈ missingFieldsOf (some pMissing) ↔
        jsTruthy (pemail? (some pMissing)) = false)
    ∧ ("payment.amount" ∈ missingFieldsOf (some pMissing) ↔
        (pamount? (some pMissing)).isSome = false)
    ∧ ("payment.notes.event_id" ∈ missingFieldsOf (some pMissing) ↔
        jsTruthy (pnotesEventId? (some pMissing)) = false))
    ∧ missingFieldsOf (some pMissing) = ["payment.email", "payment.amount"] :=
  ⟨claim_C3_missing_fields_exhaustive env0 store0 (some pMissing)
      (by decide) (by decide) (by decide),
   by decide⟩

/-- C7: for every valid `payment.captured` notification, the stored
`user_email` is the payer email lower-cased and trimmed, while
`event_id` and `payment_id` are copied verbatim. -/
theorem claim_C7_email_normalization (env : Env)
    (store : RegistrationRecord → InsertResult) (p : Payment)
    (hu : jsTruthy env.SUPABASE_URL = true)
    (hk : jsTruthy env.SUPABASE_SERVICE_ROLE_KEY = true)
    (hv : validFields (some p)) :
    ∃ r : RegistrationRecord,
      (handler env store (capturedReq (some p))).snd = [r]
      ∧ some r.user_email = p.email.map (fun s => jsTrim (jsToLowerCase s))
      ∧ some r.event_id = pnotesEventId? (some p)
      ∧ some r.payment_id = p.id := by
  obtain ⟨h1, h2, h3, h4⟩ := hv
  obtain ⟨pid, hpid⟩ := jsTruthy_isSome h1
  obtain ⟨em, hem⟩ := jsTruthy_isSome h2
  obtain ⟨eid, heid⟩ := jsTruthy_isSome h4
  have hpid' : p.id = some pid := by simpa [pid?] using hpid
  have hem' : p.email = some em := by simpa [pemail?] using hem
  refine ⟨registrationDataOf p,
    handler_valid_snd env store p hu hk ⟨h1, h2, h3, h4⟩, ?_, ?_, ?_⟩
  · simp [registrationDataOf, hem']
  · simp [registrationDataOf, heid]
  · simp [registrationDataOf, hpid']

/-- Witness for C7 at the concrete payment whose email is
`"  User@Example.COM "`; the stored email is `"user@example.com"`. -/
theorem claim_C7_email_normalization_witness :
    (∃ r : RegistrationRecord,
      (handler env0 store0 (capturedReq (some p0))).snd = [r]
      ∧ some r.user_email = p0.email.map (fun s => jsTrim (jsToLowerCase s))
      ∧ some r.event_id = pnotesEventId? (some p0)
      ∧ some r.payment_id = p0.id)
    ∧ (registrationDataOf p0).user_email = "user@example.com"
    ∧ (registrationDataOf p0).event_id = "event_a"
    ∧ (registrationDataOf p0).payment_id = "pay_123" :=
  ⟨claim_C7_email_normalization env0 store0 p0 (by decide) (by decide) (by decide),
   by decide, by decide, by decide⟩

/-- C8: for every request reaching the insert step, if the store reports
success but returns no row, the handler responds 500. -/
theorem claim_C8_empty_insert_500 (env : Env)
    (store : RegistrationRecord → InsertResult) (p : Payment)
    (hu : jsTruthy env.SUPABASE_URL = true)
    (hk : jsTruthy env.SUPABASE_SERVICE_ROLE_KEY = true)
    (hv : validFields (some p))
    (hstore : store (registrationDataOf p) = InsertResult.success []) :
    handler env store (capturedReq (some p))
      = (Response.json 500 (Body.emptyInsert
          "Registration may not have been saved properly"),
         [registrationDataOf p]) := by
  rw [handler_valid_store_case env store p hu hk hv, hstore]

/-- Witness for C8 at the concrete valid payment and a store returning
success with no rows. -/
theorem claim_C8_empty_insert_500_witness :
    handler env0 storeEmpty (capturedReq (some p0))
      = (Response.json 500 (Body.emptyInsert
          "Registration may not have been saved properly"),
         [registrationDataOf p0]) :=
  claim_C8_empty_insert_500 env0 storeEmpty p0
    (by decide) (by decide) (by decide) rfl

/-- C10: a `payment.amount` of exactly 0 passes the main handler's
`typeof` validation and yields a RegistrationRecord with amount 0, while
the variant handler's truthiness check rejects it with a 400 and writes
nothing — the two handlers disagree on this input. -/
theorem claim_C10_amount_zero_divergence (env : Env)
    (store : RegistrationRecord → InsertResult)
    (storeV : VariantRecord → InsertResult)
    (p : Payment) (pid email eid : String)
    (hu : jsTruthy env.SUPABASE_URL = true)
    (hk : jsTruthy env.SUPABASE_SERVICE_ROLE_KEY = true)
    (hid : p.id = some pid) (hpid : pid ≠ "")
    (hem : p.email = some email) (hemail : email ≠ "")
    (hev : p.notes.bind Notes.event_id = some eid) (heid : eid ≠ "")
    (hamt : p.amount = some 0) :
    (handler env store (capturedReq (some p))).snd = [registrationDataOf p]
    ∧ (registrationDataOf p).amount = 0
    ∧ handlerVariant env storeV (capturedReq (some p))
        = (Response.json 400 (Body.errorOnly
            "Missing required payment data: id, email, amount, or notes.event_id"), [])
    ∧ ∀ b : Body,
        (handler env store (capturedReq (some p))).fst ≠ Response.json 400 b := by
  have hv : validFields (some p) := by
    refine ⟨?_, ?_, ?_, ?_⟩ <;>
      simp [pid?, pemail?, pamount?, pnotesEventId?, hid, hem, hev, hamt,
        jsTruthy, hpid, hemail, heid]
  refine ⟨handler_valid_snd env store p hu hk hv, ?_, ?_,
    handler_valid_fst_ne_400 env store p hu hk hv⟩
  · have h0 : (registrationDataOf p).amount = amountInRupees 0 := by
      simp [registrationDataOf, hamt]
    rw [h0]
    decide
  · simp [handlerVariant, capturedReq, hu, hk, hamt, numTruthy]

/-- Witness for C10 at a concrete zero-amount payment: the main handler
passes a record with amount 0 to the store, the variant handler answers
400 "missing data" without writing. -/
theorem claim_C10_amount_zero_divergence_witness :
    ((handler env0 store0 (capturedReq (some pZero))).snd = [registrationDataOf pZero]
    ∧ (registrationDataOf pZero).amount = 0
    ∧ handlerVariant env0 storeV0 (capturedReq (some pZero))
        = (Response.json 400 (Body.errorOnly
            "Missing required payment data: id, email, amount, or notes.event_id"), [])
    ∧ (handler env0 store0 (capturedReq (some pZero))).fst
        ≠ Response.json 400 (Body.errorOnly
            "Missing required payment data: id, email, amount, or notes.event_id")) := by
  have h := claim_C10_amount_zero_divergence env0 store0 storeV0 pZero
    "pay_0" "zero@example.com" "event_a"
    (by decide) (by decide) rfl (by decide) rfl (by decide) rfl (by decide) rfl
  exact ⟨h.1, h.2.1, h.2.2.1, h.2.2.2 _⟩

end PaymentWebhook
